import Mathlib

/-!
Verification of the two calculation engines of the portfolio stress-test
dashboard (`src/app.py`): the Sunita longevity simulation (30-year corpus
drawdown loop, lines 56-88) and the Shekhar solvency evaluation (lines
128-146), together with the output metrics built from them (lines 95-98
and 154-156).

All real-number arithmetic of the source is embedded over `ℚ` (exact
rational semantics of the formulas). The Python string/int union held by
`depletion_age` ("95+" versus a numeric age) is embedded as the inductive
type `DepAge`.
-/

namespace StressTest

/-- The two options of the "Living Strategy" radio button (app.py line 50). -/
inductive RentStrategy
  | payingRent
  | familyHome
deriving DecidableEq

/-- Inputs of the Sunita longevity tab: inflation slider, living-strategy
radio, medical-shock selectbox (app.py lines 49-52). -/
structure LongevityInputs where
  inflation : ℚ
  rentStrategy : RentStrategy
  medicalShock : ℚ
deriving DecidableEq

/-- The value of the Python variable `depletion_age`: initially the string
"95+", later possibly a numeric age (app.py lines 64 and 85). -/
inductive DepAge
  | str95
  | ofAge (a : ℕ)
deriving DecidableEq

/-- Constant `pension = 300000` (app.py line 57). -/
def pension : ℚ := 300000

/-- Constant `base_living_expense = 480000` (app.py line 58). -/
def base_living_expense : ℚ := 480000

/-- Constant `corpus = 2500000` (app.py line 56). -/
def initial_corpus : ℚ := 2500000

/-- Line 59: `rent_expense = 120000` when paying rent, else 0
(app.py line 59). -/
def rent_expense (r : RentStrategy) : ℚ :=
  if r = .payingRent then 120000 else 0

/-- Line 60: `total_expense_y1 = base_living_expense + rent_expense`. -/
def total_expense_y1 (inp : LongevityInputs) : ℚ :=
  base_living_expense + rent_expense inp.rentStrategy

/-- The expense of a simulated year: line 71
`annual_expense = total_expense_y1 * ((1 + inflation/100)**(year-1))`
followed by line 72 `if year == 5: annual_expense += medical_shock`. -/
def annual_expense (inp : LongevityInputs) (year : ℕ) : ℚ :=
  total_expense_y1 inp * (1 + inp.inflation / 100) ^ (year - 1) +
    (if year = 5 then inp.medicalShock else 0)

/-- The mutable state carried through the simulation loop:
`current_corpus`, `depletion_age`, `status_color` (red = `true`). -/
structure SimState where
  corpus : ℚ
  depletion_age : DepAge
  status_red : Bool
deriving DecidableEq

/-- One iteration of the `for year in range(1, 31)` loop body
(app.py lines 68-87), acting on the loop-carried state. -/
def stepYear (inp : LongevityInputs) (year : ℕ) (s : SimState) : SimState :=
  let ae := annual_expense inp year
  let portfolio_income := max 0 (s.corpus * (78 / 1000))
  let total_inflow := pension + portfolio_income
  let drawdown := max 0 (ae - total_inflow)
  let c := s.corpus - drawdown
  if c ≤ 0 then
    { corpus := 0
      depletion_age := if s.depletion_age = .str95 then .ofAge (65 + year) else s.depletion_age
      status_red := if s.depletion_age = .str95 then true else s.status_red }
  else
    { s with corpus := c }

/-- The state before the loop (app.py lines 63-65). -/
def initState : SimState :=
  { corpus := initial_corpus, depletion_age := .str95, status_red := false }

/-- The loop state after `n` completed iterations. -/
def stateAfter (inp : LongevityInputs) : ℕ → SimState
  | 0 => initState
  | n + 1 => stepYear inp (n + 1) (stateAfter inp n)

/-- One appended row `{"Age": age, "Corpus": current_corpus}` (app.py line 88). -/
structure YearPoint where
  age : ℕ
  corpus : ℚ
deriving DecidableEq

/-- The outputs of the Sunita tab: the 30-row series, the Monthly Gap metric
`(total_expense_y1 - pension)/12` (line 95), and the final `depletion_age`
and `status_color` values. -/
structure LongevityResult where
  series : List YearPoint
  monthlyGap : ℚ
  depletion_age : DepAge
  status_red : Bool

/-- The whole Sunita logic engine (app.py lines 56-95): run the 30-year loop,
collecting one `YearPoint` per year, and compute the summary metrics. -/
def project (inp : LongevityInputs) : LongevityResult :=
  { series := (List.range' 1 30).map fun y =>
      { age := 65 + y, corpus := (stateAfter inp y).corpus }
    monthlyGap := (total_expense_y1 inp - pension) / 12
    depletion_age := (stateAfter inp 30).depletion_age
    status_red := (stateAfter inp 30).status_red }

/-- The delta badge of the "Projected Depletion Age" metric. -/
inductive Badge
  | critical
  | safe
deriving DecidableEq

/-- The Python comparison `depletion_age < 80`: comparing the string "95+"
with a number raises `TypeError`, embedded as `none`. -/
def depAgeLt (d : DepAge) (n : ℕ) : Option Bool :=
  match d with
  | .str95 => none
  | .ofAge a => some (decide (a < n))

/-- Line 97: `delta="Critical" if status_color=="red" and depletion_age < 80
else "Safe"`. Python `and` short-circuits, so `depletion_age < 80` is
evaluated only when `status_color == "red"`. -/
def badgeDelta (status_red : Bool) (d : DepAge) : Option Badge :=
  if status_red then
    (depAgeLt d 80).map fun b => if b then Badge.critical else Badge.safe
  else
    some Badge.safe

/-- Inputs of the Shekhar solvency tab (app.py lines 122-123). -/
structure SolvencyInputs where
  market_crash : ℤ
  house_inflation : ℤ
deriving DecidableEq

/-- The quantities computed by the Shekhar logic engine (app.py lines
128-146) plus the SAFE/RISK flag of line 154. -/
structure SolvencyResult where
  equity_val : ℚ
  arbitrage_val : ℚ
  bond_val : ℚ
  gold_val : ℚ
  total_liquid_assets : ℚ
  solvency_ratio : ℚ
  is_safe : Bool
  house_cost : ℚ
  projected_wealth : ℚ
  surplus : ℚ

/-- The Shekhar logic engine (app.py lines 128-146, 154):
`equity_val = 16000000 * (1 - market_crash/100)`,
`gold_val = 4000000 * (1.10 if market_crash > 15 else 1.0)`,
stable arbitrage and bond buckets, `solvency_ratio = total / 16600000`,
`house_cost = 30000000 * ((1.05 + house_inflation/100)**4)`,
`projected_wealth = total * 1.09**4`, and the badge test
`solvency_ratio >= 2.0`. -/
def evaluate (inp : SolvencyInputs) : SolvencyResult :=
  let equity_val : ℚ := 16000000 * (1 - (inp.market_crash : ℚ) / 100)
  let arbitrage_val : ℚ := 10000000
  let bond_val : ℚ := 10000000
  let gold_val : ℚ := 4000000 * (if 15 < inp.market_crash then 11 / 10 else 1)
  let total_liquid_assets := equity_val + arbitrage_val + bond_val + gold_val
  let annual_debt_obligation : ℚ := 16600000
  let solvency_ratio := total_liquid_assets / annual_debt_obligation
  let house_cost : ℚ := 30000000 * ((105 / 100 + (inp.house_inflation : ℚ) / 100) ^ 4)
  let projected_wealth := total_liquid_assets * (109 / 100) ^ 4
  { equity_val := equity_val
    arbitrage_val := arbitrage_val
    bond_val := bond_val
    gold_val := gold_val
    total_liquid_assets := total_liquid_assets
    solvency_ratio := solvency_ratio
    is_safe := decide (2 ≤ solvency_ratio)
    house_cost := house_cost
    projected_wealth := projected_wealth
    surplus := projected_wealth - house_cost }

/-- The documented input contract of the longevity calculator: inflation
slider range [4, 10], medical shock one of the selectbox options. -/
def ValidLongevity (inp : LongevityInputs) : Prop :=
  4 ≤ inp.inflation ∧ inp.inflation ≤ 10 ∧
    (inp.medicalShock = 0 ∨ inp.medicalShock = 300000 ∨ inp.medicalShock = 500000)

instance (inp : LongevityInputs) : Decidable (ValidLongevity inp) := by
  unfold ValidLongevity; infer_instance

/-- The documented contract of the market-crash slider: range [0, 50],
step 5. -/
def ValidCrash (c : ℤ) : Prop :=
  0 ≤ c ∧ c ≤ 50 ∧ 5 ∣ c

instance (c : ℤ) : Decidable (ValidCrash c) := by
  unfold ValidCrash; infer_instance

/-! ### Longevity loop lemmas -/

/-- Closed form of the corpus update of one loop iteration:
subtracting `drawdown = max 0 (expense - pension - 0.078*corpus)` and then
clamping at zero equals `max 0 (min corpus (1.078*corpus + pension - expense))`. -/
def corpusStep (c e : ℚ) : ℚ :=
  max 0 (min c (1078 / 1000 * c + pension - e))

theorem stepYear_corpus (inp : LongevityInputs) (y : ℕ) (s : SimState)
    (h : 0 ≤ s.corpus) :
    (stepYear inp y s).corpus = corpusStep s.corpus (annual_expense inp y) := by
  have hinc : max 0 (s.corpus * (78 / 1000)) = s.corpus * (78 / 1000) :=
    max_eq_right (mul_nonneg h (by norm_num))
  have hc : s.corpus - max 0 (annual_expense inp y - (pension + s.corpus * (78 / 1000))) =
      min s.corpus (1078 / 1000 * s.corpus + pension - annual_expense inp y) := by
    rcases le_total (annual_expense inp y - (pension + s.corpus * (78 / 1000))) 0 with hd | hd
    · rw [max_eq_left hd, sub_zero, min_eq_left (by linarith)]
    · rw [max_eq_right hd, min_eq_right (by linarith)]
      ring
  simp only [stepYear, hinc]
  rw [hc]
  by_cases h0 : min s.corpus (1078 / 1000 * s.corpus + pension - annual_expense inp y) ≤ 0
  · rw [if_pos h0]
    exact (max_eq_left h0).symm
  · rw [if_neg h0]
    exact (max_eq_right (le_of_not_le h0)).symm

theorem corpusStep_nonneg (c e : ℚ) : 0 ≤ corpusStep c e := le_max_left 0 _

theorem corpusStep_le_self {c : ℚ} (e : ℚ) (h : 0 ≤ c) : corpusStep c e ≤ c :=
  max_le h (min_le_left _ _)

theorem corpusStep_of_zero (e : ℚ) : corpusStep 0 e = 0 :=
  max_eq_left (min_le_left 0 _)

theorem corpusStep_mono {c c' e e' : ℚ} (hc : c ≤ c') (he : e' ≤ e) :
    corpusStep c e ≤ corpusStep c' e' :=
  max_le_max le_rfl (min_le_min hc (by linarith))

theorem min_pos_of_corpusStep_pos {c e : ℚ} (h : 0 < corpusStep c e) :
    0 < min c (1078 / 1000 * c + pension - e) := by
  by_contra hle
  push_neg at hle
  rw [corpusStep, max_eq_left hle] at h
  exact lt_irrefl 0 h

theorem corpusStep_strict_of_lt {c c' e e' : ℚ} (hc : c < c') (he : e' ≤ e)
    (hpos : 0 < corpusStep c e) :
    corpusStep c e < corpusStep c' e' := by
  have hm := min_pos_of_corpusStep_pos hpos
  have h1 : corpusStep c e = min c (1078 / 1000 * c + pension - e) :=
    max_eq_right (le_of_lt hm)
  rw [h1]
  apply lt_of_lt_of_le _ (le_max_right 0 _)
  exact lt_min (lt_of_le_of_lt (min_le_left _ _) hc)
    (lt_of_le_of_lt (min_le_right _ _) (by linarith))

theorem corpusStep_strict_of_exp {c e e' : ℚ} (he : e < e')
    (hX : 1078 / 1000 * c + pension - e' < c)
    (hpos : 0 < corpusStep c e') :
    corpusStep c e' < corpusStep c e := by
  have hm := min_pos_of_corpusStep_pos hpos
  have h1 : corpusStep c e' = min c (1078 / 1000 * c + pension - e') :=
    max_eq_right (le_of_lt hm)
  rw [h1, min_eq_right (le_of_lt hX)]
  apply lt_of_lt_of_le _ (le_max_right 0 _)
  exact lt_min hX (by linarith)

theorem corpus_nonneg (inp : LongevityInputs) : ∀ n, 0 ≤ (stateAfter inp n).corpus := by
  intro n
  induction n with
  | zero => norm_num [stateAfter, initState, initial_corpus]
  | succ n ih =>
    simp only [stateAfter]
    rw [stepYear_corpus inp (n + 1) _ ih]
    exact corpusStep_nonneg _ _

theorem corpus_le_init (inp : LongevityInputs) :
    ∀ n, (stateAfter inp n).corpus ≤ 2500000 := by
  intro n
  induction n with
  | zero => norm_num [stateAfter, initState, initial_corpus]
  | succ n ih =>
    simp only [stateAfter]
    rw [stepYear_corpus inp (n + 1) _ (corpus_nonneg inp n)]
    exact le_trans (corpusStep_le_self _ (corpus_nonneg inp n)) ih

theorem corpus_zero_succ (inp : LongevityInputs) (n : ℕ)
    (h : (stateAfter inp n).corpus = 0) :
    (stateAfter inp (n + 1)).corpus = 0 := by
  simp only [stateAfter]
  rw [stepYear_corpus inp (n + 1) _ (corpus_nonneg inp n), h, corpusStep_of_zero]

theorem corpus_zero_mono (inp : LongevityInputs) {m n : ℕ} (hmn : m ≤ n)
    (h : (stateAfter inp m).corpus = 0) :
    (stateAfter inp n).corpus = 0 := by
  induction n with
  | zero => rwa [Nat.le_zero.mp hmn] at h
  | succ n ih =>
    rcases Nat.lt_succ_iff_lt_or_eq.mp (Nat.lt_succ_of_le hmn) with hlt | heq
    · exact corpus_zero_succ inp n (ih (Nat.lt_succ_iff.mp hlt))
    · rwa [heq] at h

theorem stepYear_dep_split (inp : LongevityInputs) (y : ℕ) (s : SimState) :
    (0 < (stepYear inp y s).corpus ∧
      (stepYear inp y s).depletion_age = s.depletion_age ∧
      (stepYear inp y s).status_red = s.status_red) ∨
    ((stepYear inp y s).corpus = 0 ∧
      (stepYear inp y s).depletion_age =
        (if s.depletion_age = .str95 then .ofAge (65 + y) else s.depletion_age) ∧
      (stepYear inp y s).status_red =
        (if s.depletion_age = .str95 then true else s.status_red)) := by
  by_cases hc : s.corpus -
      max 0 (annual_expense inp y - (pension + max 0 (s.corpus * (78 / 1000)))) ≤ 0
  · right
    refine ⟨?_, ?_, ?_⟩ <;> (simp only [stepYear]; rw [if_pos hc])
  · left
    refine ⟨?_, ?_, ?_⟩ <;> (simp only [stepYear]; rw [if_neg hc])
    exact lt_of_not_le hc

theorem status_iff_dep (inp : LongevityInputs) :
    ∀ n, ((stateAfter inp n).status_red = true ↔
      (stateAfter inp n).depletion_age ≠ DepAge.str95) := by
  intro n
  induction n with
  | zero => simp [stateAfter, initState]
  | succ n ih =>
    simp only [stateAfter]
    rcases stepYear_dep_split inp (n + 1) (stateAfter inp n) with ⟨_, hd, hs⟩ | ⟨_, hd, hs⟩
    · rw [hd, hs]
      exact ih
    · rw [hd, hs]
      by_cases hstr : (stateAfter inp n).depletion_age = DepAge.str95
      · simp [hstr]
      · simp only [if_neg hstr]
        exact ih

/-- The depletion bookkeeping invariant of the loop: either the corpus has
never reached 0 so far and `depletion_age` still holds "95+", or the corpus
first reached 0 at some year k ≤ n, `depletion_age` holds the age `65 + k`
of that year, and the corpus is (still) 0. -/
def DepInv (inp : LongevityInputs) (n : ℕ) : Prop :=
  ((stateAfter inp n).depletion_age = DepAge.str95 ∧
    ∀ m, m ≤ n → (stateAfter inp m).corpus ≠ 0) ∨
  (∃ k, 1 ≤ k ∧ k ≤ n ∧
    (stateAfter inp n).depletion_age = DepAge.ofAge (65 + k) ∧
    (stateAfter inp k).corpus = 0 ∧
    (∀ m, m < k → (stateAfter inp m).corpus ≠ 0) ∧
    (stateAfter inp n).corpus = 0)

theorem depInv (inp : LongevityInputs) : ∀ n, DepInv inp n := by
  intro n
  induction n with
  | zero =>
    left
    refine ⟨rfl, fun m hm => ?_⟩
    rw [Nat.le_zero.mp hm]
    norm_num [stateAfter, initState, initial_corpus]
  | succ n ih =>
    rcases stepYear_dep_split inp (n + 1) (stateAfter inp n) with ⟨hpos, hd, _⟩ | ⟨hz, hd, _⟩
    · rcases ih with ⟨hdep, hall⟩ | ⟨k, hk1, hkn, hdep, hck, hprev, hcn⟩
      · left
        refine ⟨?_, fun m hm => ?_⟩
        · simp only [stateAfter]
          rw [hd]
          exact hdep
        · rcases Nat.lt_succ_iff_lt_or_eq.mp (Nat.lt_succ_of_le hm) with hlt | heq
          · exact hall m (Nat.lt_succ_iff.mp hlt)
          · rw [heq]
            simp only [stateAfter]
            exact hpos.ne'
      · exfalso
        have hz1 : (stateAfter inp (n + 1)).corpus = 0 := corpus_zero_succ inp n hcn
        simp only [stateAfter] at hz1
        rw [hz1] at hpos
        exact lt_irrefl 0 hpos
    · rcases ih with ⟨hdep, hall⟩ | ⟨k, hk1, hkn, hdep, hck, hprev, hcn⟩
      · right
        refine ⟨n + 1, Nat.succ_le_succ (Nat.zero_le n), le_refl _, ?_, ?_, ?_, ?_⟩
        · simp only [stateAfter]
          rw [hd, if_pos hdep]
        · simp only [stateAfter]
          exact hz
        · intro m hm
          exact hall m (Nat.lt_succ_iff.mp hm)
        · simp only [stateAfter]
          exact hz
      · right
        refine ⟨k, hk1, le_trans hkn (Nat.le_succ n), ?_, hck, hprev, ?_⟩
        · simp only [stateAfter]
          rw [hd, if_neg (by rw [hdep]; intro hcon; exact DepAge.noConfusion hcon)]
          exact hdep
        · simp only [stateAfter]
          exact hz

theorem project_series_length (inp : LongevityInputs) :
    (project inp).series.length = 30 := by
  simp [project]

theorem project_series_get (inp : LongevityInputs) (i : ℕ)
    (hi : i < (project inp).series.length) :
    (project inp).series.get ⟨i, hi⟩ =
      { age := 66 + i, corpus := (stateAfter inp (1 + i)).corpus } := by
  have hi' : i < 30 := by rwa [project_series_length] at hi
  simp only [project, List.get_eq_getElem, List.getElem_map, List.getElem_range'_1]
  have hage : 65 + (1 + i) = 66 + i := by omega
  rw [hage]

theorem project_series_mem (inp : LongevityInputs) (p : YearPoint)
    (hp : p ∈ (project inp).series) :
    ∃ y, 1 ≤ y ∧ y ≤ 30 ∧ p.age = 65 + y ∧ p.corpus = (stateAfter inp y).corpus := by
  simp only [project, List.mem_map, List.mem_range'_1] at hp
  obtain ⟨y, ⟨hy1, hy2⟩, rfl⟩ := hp
  exact ⟨y, hy1, by omega, rfl, rfl⟩

/-- The last corpus value of the produced series (the year-30 point). -/
def terminalCorpus (r : LongevityResult) : ℚ :=
  ((r.series.getLast?).map YearPoint.corpus).getD 0

theorem terminalCorpus_project (inp : LongevityInputs) :
    terminalCorpus (project inp) = (stateAfter inp 30).corpus := rfl

/-! ### Longevity claims -/

/-- C1: for every valid input, the series corpus is never negative; once a
point of the series has corpus 0 every later point has corpus 0; when
`depletion_age` still holds "95+" no point of the series has corpus 0; and
when `depletion_age` holds an age it is the age of the first series point
whose corpus is 0 (later zero years never reassign it). -/
theorem c1_monotone_depletion (inp : LongevityInputs) (hv : ValidLongevity inp) :
    (∀ p ∈ (project inp).series, 0 ≤ p.corpus) ∧
    (∀ i j (hi : i < (project inp).series.length) (hj : j < (project inp).series.length),
      i ≤ j → ((project inp).series.get ⟨i, hi⟩).corpus = 0 →
        ((project inp).series.get ⟨j, hj⟩).corpus = 0) ∧
    ((project inp).depletion_age = DepAge.str95 →
      ∀ p ∈ (project inp).series, p.corpus ≠ 0) ∧
    (∀ a, (project inp).depletion_age = DepAge.ofAge a →
      ∃ i, ∃ hi : i < (project inp).series.length,
        ((project inp).series.get ⟨i, hi⟩).age = a ∧
        ((project inp).series.get ⟨i, hi⟩).corpus = 0 ∧
        ∀ j (hj : j < (project inp).series.length), j < i →
          ((project inp).series.get ⟨j, hj⟩).corpus ≠ 0) := by
  refine ⟨?_, ?_, ?_, ?_⟩
  · intro p hp
    obtain ⟨y, _, _, _, hc⟩ := project_series_mem inp p hp
    rw [hc]
    exact corpus_nonneg inp y
  · intro i j hi hj hij h0
    rw [project_series_get inp i hi] at h0
    rw [project_series_get inp j hj]
    exact corpus_zero_mono inp (by omega : 1 + i ≤ 1 + j) h0
  · intro hdep p hp
    obtain ⟨y, _, hy30, _, hc⟩ := project_series_mem inp p hp
    rcases depInv inp 30 with ⟨_, hall⟩ | ⟨k, _, _, hk, _, _, _⟩
    · rw [hc]
      exact hall y hy30
    · exfalso
      have : (project inp).depletion_age = DepAge.ofAge (65 + k) := hk
      rw [hdep] at this
      exact DepAge.noConfusion this
  · intro a hdep
    rcases depInv inp 30 with ⟨hstr, _⟩ | ⟨k, hk1, hk30, hk, hck, hprev, _⟩
    · exfalso
      have hcontra : (project inp).depletion_age = DepAge.str95 := hstr
      rw [hdep] at hcontra
      exact DepAge.noConfusion hcontra
    · have heq : DepAge.ofAge a = DepAge.ofAge (65 + k) := by
        rw [← hdep]
        exact hk
      have ha : a = 65 + k := by
        injection heq
      have hik : k - 1 < (project inp).series.length := by
        rw [project_series_length]
        omega
      refine ⟨k - 1, hik, ?_, ?_, ?_⟩
      · rw [project_series_get inp (k - 1) hik]
        show 66 + (k - 1) = a
        omega
      · rw [project_series_get inp (k - 1) hik]
        show (stateAfter inp (1 + (k - 1))).corpus = 0
        rw [(by omega : 1 + (k - 1) = k)]
        exact hck
      · intro j hj hjk
        rw [project_series_get inp j hj]
        show (stateAfter inp (1 + j)).corpus ≠ 0
        exact hprev (1 + j) (by omega)

/-- Witness for C1 at a concrete valid input. -/
theorem c1_monotone_depletion_witness :
    ValidLongevity ⟨6, RentStrategy.payingRent, 0⟩ ∧
    ∀ p ∈ (project ⟨6, RentStrategy.payingRent, 0⟩).series, 0 ≤ p.corpus :=
  ⟨by decide, (c1_monotone_depletion ⟨6, RentStrategy.payingRent, 0⟩ (by decide)).1⟩

/-- C8: for every valid input the series has exactly 30 points, the age of
point i is 66 + i (so ages are strictly increasing and start at 66), and the
one-time medical shock enters the expense of year 5 and of no other year. -/
theorem c8_series_shape (inp : LongevityInputs) (hv : ValidLongevity inp) :
    (project inp).series.length = 30 ∧
    (∀ i (hi : i < (project inp).series.length),
      ((project inp).series.get ⟨i, hi⟩).age = 66 + i) ∧
    (∀ i j (hi : i < (project inp).series.length) (hj : j < (project inp).series.length),
      i < j →
        ((project inp).series.get ⟨i, hi⟩).age < ((project inp).series.get ⟨j, hj⟩).age) ∧
    ((project inp).series.head?.map YearPoint.age = some 66) ∧
    (annual_expense inp 5 =
      total_expense_y1 inp * (1 + inp.inflation / 100) ^ 4 + inp.medicalShock) ∧
    (∀ y, y ≠ 5 →
      annual_expense inp y = total_expense_y1 inp * (1 + inp.inflation / 100) ^ (y - 1)) := by
  refine ⟨project_series_length inp, ?_, ?_, ?_, ?_, ?_⟩
  · intro i hi
    rw [project_series_get inp i hi]
  · intro i j hi hj hij
    rw [project_series_get inp i hi, project_series_get inp j hj]
    show 66 + i < 66 + j
    omega
  · rfl
  · simp [annual_expense]
  · intro y hy
    simp [annual_expense, hy]

/-- Witness for C8 at a concrete valid input. -/
theorem c8_series_shape_witness :
    ValidLongevity ⟨6, RentStrategy.payingRent, 0⟩ ∧
    (project ⟨6, RentStrategy.payingRent, 0⟩).series.length = 30 :=
  ⟨by decide, (c8_series_shape ⟨6, RentStrategy.payingRent, 0⟩ (by decide)).1⟩

/-- C7: the Monthly Gap metric equals
`(480000 + rent - 300000) / 12`, depends only on the rent strategy (not on
inflation or medical shock), and equals 25000 when paying rent. -/
theorem c7_monthly_gap (inp : LongevityInputs) (hv : ValidLongevity inp) :
    (project inp).monthlyGap =
      (480000 + (if inp.rentStrategy = RentStrategy.payingRent then 120000 else 0)
        - 300000) / 12 ∧
    (∀ inp2 : LongevityInputs, inp2.rentStrategy = inp.rentStrategy →
      (project inp2).monthlyGap = (project inp).monthlyGap) ∧
    (inp.rentStrategy = RentStrategy.payingRent → (project inp).monthlyGap = 25000) := by
  refine ⟨rfl, ?_, ?_⟩
  · intro inp2 hrent
    show (total_expense_y1 inp2 - pension) / 12 = (total_expense_y1 inp - pension) / 12
    unfold total_expense_y1
    rw [hrent]
  · intro h
    show (total_expense_y1 inp - pension) / 12 = 25000
    unfold total_expense_y1 rent_expense base_living_expense pension
    rw [if_pos h]
    norm_num

/-- Witness for C7 at a concrete valid input. -/
theorem c7_monthly_gap_witness :
    ValidLongevity ⟨6, RentStrategy.payingRent, 0⟩ ∧
    (project ⟨6, RentStrategy.payingRent, 0⟩).monthlyGap = 25000 :=
  ⟨by decide, (c7_monthly_gap ⟨6, RentStrategy.payingRent, 0⟩ (by decide)).2.2 rfl⟩

/-- C10: the "Critical"/"Safe" badge never compares the string "95+" with a
number: `status_color` is red exactly when `depletion_age` holds an integer
age, so the short-circuited comparison `depletion_age < 80` is only reached
with an integer at hand and the badge computation never produces the
`TypeError` value `none`. -/
theorem c10_badge_type_safe (inp : LongevityInputs) (hv : ValidLongevity inp) :
    ((project inp).status_red = true ↔ (project inp).depletion_age ≠ DepAge.str95) ∧
    ((project inp).status_red = true → ∃ a, (project inp).depletion_age = DepAge.ofAge a) ∧
    ((badgeDelta (project inp).status_red (project inp).depletion_age).isSome = true) ∧
    ((project inp).status_red = false →
      badgeDelta (project inp).status_red (project inp).depletion_age = some Badge.safe) := by
  have hiff : (project inp).status_red = true ↔
      (project inp).depletion_age ≠ DepAge.str95 := status_iff_dep inp 30
  have hsome : (project inp).status_red = true →
      ∃ a, (project inp).depletion_age = DepAge.ofAge a := by
    intro h
    have hne := hiff.mp h
    cases hd : (project inp).depletion_age with
    | str95 => exact absurd hd hne
    | ofAge a => exact ⟨a, rfl⟩
  refine ⟨hiff, hsome, ?_, ?_⟩
  · by_cases hr : (project inp).status_red = true
    · obtain ⟨a, ha⟩ := hsome hr
      simp [badgeDelta, hr, ha, depAgeLt]
    · have hf : (project inp).status_red = false := by
        revert hr
        cases (project inp).status_red <;> simp
      simp [badgeDelta, hf]
  · intro hf
    simp [badgeDelta, hf]

/-- Witness for C10 at a concrete valid input. -/
theorem c10_badge_type_safe_witness :
    ValidLongevity ⟨6, RentStrategy.payingRent, 0⟩ ∧
    (badgeDelta (project ⟨6, RentStrategy.payingRent, 0⟩).status_red
      (project ⟨6, RentStrategy.payingRent, 0⟩).depletion_age).isSome = true :=
  ⟨by decide, (c10_badge_type_safe ⟨6, RentStrategy.payingRent, 0⟩ (by decide)).2.2.1⟩

/-- C9 counterexample: the calculators do NOT reject out-of-contract input.
The out-of-range inflation rate -1 is outside the documented contract, yet
the longevity calculator still produces a full 30-point result with the
usual metrics, rather than failing fast. -/
theorem c9_no_fail_fast_counterexample :
    ¬ ValidLongevity ⟨-1, RentStrategy.payingRent, 0⟩ ∧
    (project ⟨-1, RentStrategy.payingRent, 0⟩).series.length = 30 ∧
    (project ⟨-1, RentStrategy.payingRent, 0⟩).monthlyGap = 25000 := by
  refine ⟨by decide, project_series_length _, ?_⟩
  show (total_expense_y1 ⟨-1, RentStrategy.payingRent, 0⟩ - pension) / 12 = 25000
  unfold total_expense_y1 rent_expense base_living_expense pension
  norm_num

/-- C9 amended: the calculators perform no boundary validation at all:
every input, in contract or not, is accepted and flows through the same
formulas unchanged (no rejection and no clamping of the raw values). -/
theorem c9_no_validation :
    (∀ inp : LongevityInputs,
      (project inp).series.length = 30 ∧
      ∀ y, annual_expense inp y =
        total_expense_y1 inp * (1 + inp.inflation / 100) ^ (y - 1) +
          (if y = 5 then inp.medicalShock else 0)) ∧
    (∀ sp : SolvencyInputs,
      (evaluate sp).solvency_ratio = (evaluate sp).total_liquid_assets / 16600000) := by
  exact ⟨fun inp => ⟨project_series_length inp, fun y => rfl⟩, fun sp => rfl⟩

/-! ### Inflation monotonicity (C6) -/

theorem total_expense_y1_lb (inp : LongevityInputs) :
    480000 ≤ total_expense_y1 inp := by
  unfold total_expense_y1 rent_expense base_living_expense
  split <;> norm_num

theorem annual_expense_mono {inp1 inp2 : LongevityInputs}
    (hrent : inp1.rentStrategy = inp2.rentStrategy)
    (hmed : inp1.medicalShock = inp2.medicalShock)
    (h0 : 0 ≤ inp1.inflation) (hle : inp1.inflation ≤ inp2.inflation) (y : ℕ) :
    annual_expense inp1 y ≤ annual_expense inp2 y := by
  unfold annual_expense
  have hT : total_expense_y1 inp1 = total_expense_y1 inp2 := by
    unfold total_expense_y1
    rw [hrent]
  rw [hT, hmed]
  have hpow : (1 + inp1.inflation / 100) ^ (y - 1) ≤ (1 + inp2.inflation / 100) ^ (y - 1) :=
    pow_le_pow_left₀ (by linarith) (by linarith) (y - 1)
  have hTnn : (0 : ℚ) ≤ total_expense_y1 inp2 :=
    le_trans (by norm_num) (total_expense_y1_lb inp2)
  exact add_le_add_right (mul_le_mul_of_nonneg_left hpow hTnn) _

theorem annual_expense_strict_30 {inp1 inp2 : LongevityInputs}
    (hrent : inp1.rentStrategy = inp2.rentStrategy)
    (h0 : 0 ≤ inp1.inflation) (hlt : inp1.inflation < inp2.inflation) :
    annual_expense inp1 30 < annual_expense inp2 30 := by
  unfold annual_expense
  have hT : total_expense_y1 inp1 = total_expense_y1 inp2 := by
    unfold total_expense_y1
    rw [hrent]
  rw [hT, if_neg (by norm_num : ¬((30 : ℕ) = 5)), if_neg (by norm_num : ¬((30 : ℕ) = 5)),
    add_zero, add_zero]
  have hpow : (1 + inp1.inflation / 100) ^ (30 - 1) < (1 + inp2.inflation / 100) ^ (30 - 1) :=
    pow_lt_pow_left₀ (by linarith) (by linarith) (by norm_num)
  exact mul_lt_mul_of_pos_left hpow
    (lt_of_lt_of_le (by norm_num) (total_expense_y1_lb inp2))

theorem annual_expense_30_lb {inp : LongevityInputs} (h4 : 4 ≤ inp.inflation) :
    499200 ≤ annual_expense inp 30 := by
  unfold annual_expense
  rw [if_neg (by norm_num : ¬((30 : ℕ) = 5)), add_zero]
  have hone : (1 : ℚ) ≤ 1 + inp.inflation / 100 := by linarith
  have hpow : 1 + inp.inflation / 100 ≤ (1 + inp.inflation / 100) ^ (30 - 1) :=
    le_self_pow₀ hone (by norm_num)
  calc (499200 : ℚ) = 480000 * (1 + 4 / 100) := by norm_num
    _ ≤ total_expense_y1 inp * ((1 + inp.inflation / 100) ^ (30 - 1)) :=
        mul_le_mul (total_expense_y1_lb inp)
          (le_trans (by linarith) hpow) (by linarith) (by linarith [total_expense_y1_lb inp])

theorem stateAfter_succ_corpus (inp : LongevityInputs) (n : ℕ) :
    (stateAfter inp (n + 1)).corpus =
      corpusStep (stateAfter inp n).corpus (annual_expense inp (n + 1)) := by
  simp only [stateAfter]
  exact stepYear_corpus inp (n + 1) _ (corpus_nonneg inp n)

theorem corpus_pointwise {inp1 inp2 : LongevityInputs}
    (hrent : inp1.rentStrategy = inp2.rentStrategy)
    (hmed : inp1.medicalShock = inp2.medicalShock)
    (h0 : 0 ≤ inp1.inflation) (hle : inp1.inflation ≤ inp2.inflation) :
    ∀ n, (stateAfter inp2 n).corpus ≤ (stateAfter inp1 n).corpus := by
  intro n
  induction n with
  | zero => exact le_refl _
  | succ n ih =>
    rw [stateAfter_succ_corpus, stateAfter_succ_corpus]
    exact corpusStep_mono ih (annual_expense_mono hrent hmed h0 hle (n + 1))

/-- C6: with rent strategy and medical shock fixed, a strictly higher
inflation rate gives a run that depletes at the same or an earlier age, and
if neither run depletes within the 30 years, a strictly lower terminal
corpus. -/
theorem c6_inflation_monotone_risk (inp1 inp2 : LongevityInputs)
    (h1 : ValidLongevity inp1) (h2 : ValidLongevity inp2)
    (hrent : inp1.rentStrategy = inp2.rentStrategy)
    (hmed : inp1.medicalShock = inp2.medicalShock)
    (hinf : inp1.inflation < inp2.inflation) :
    (∀ a1, (project inp1).depletion_age = DepAge.ofAge a1 →
      ∃ a2, (project inp2).depletion_age = DepAge.ofAge a2 ∧ a2 ≤ a1) ∧
    ((project inp1).depletion_age = DepAge.str95 →
      (project inp2).depletion_age = DepAge.str95 →
      terminalCorpus (project inp2) < terminalCorpus (project inp1)) := by
  have h0 : (0 : ℚ) ≤ inp1.inflation := le_trans (by norm_num) h1.1
  have hpt := corpus_pointwise hrent hmed h0 (le_of_lt hinf)
  constructor
  · intro a1 hdep1
    rcases depInv inp1 30 with ⟨hstr, _⟩ | ⟨k1, hk11, hk130, hkdep1, hck1, _, _⟩
    · exfalso
      have hc : (project inp1).depletion_age = DepAge.str95 := hstr
      rw [hdep1] at hc
      exact DepAge.noConfusion hc
    · have hz2 : (stateAfter inp2 k1).corpus = 0 :=
        le_antisymm (hck1 ▸ hpt k1) (corpus_nonneg inp2 k1)
      rcases depInv inp2 30 with ⟨_, hall2⟩ | ⟨k2, hk21, hk230, hkdep2, _, hprev2, _⟩
      · exact absurd hz2 (hall2 k1 hk130)
      · have hk2k1 : k2 ≤ k1 := by
          by_contra hgt
          push_neg at hgt
          exact hprev2 k1 hgt hz2
        have ha1 : a1 = 65 + k1 := by
          have heq : DepAge.ofAge a1 = DepAge.ofAge (65 + k1) := by
            rw [← hdep1]
            exact hkdep1
          injection heq
        exact ⟨65 + k2, hkdep2, by omega⟩
  · intro hdep1 hdep2
    have hall1 : ∀ m, m ≤ 30 → (stateAfter inp1 m).corpus ≠ 0 := by
      rcases depInv inp1 30 with ⟨_, h⟩ | ⟨k, _, _, hk, _, _, _⟩
      · exact h
      · exfalso
        have hc : (project inp1).depletion_age = DepAge.ofAge (65 + k) := hk
        rw [hdep1] at hc
        exact DepAge.noConfusion hc
    have hall2 : ∀ m, m ≤ 30 → (stateAfter inp2 m).corpus ≠ 0 := by
      rcases depInv inp2 30 with ⟨_, h⟩ | ⟨k, _, _, hk, _, _, _⟩
      · exact h
      · exfalso
        have hc : (project inp2).depletion_age = DepAge.ofAge (65 + k) := hk
        rw [hdep2] at hc
        exact DepAge.noConfusion hc
    rw [terminalCorpus_project, terminalCorpus_project]
    have h30pos2 : 0 < (stateAfter inp2 30).corpus :=
      lt_of_le_of_ne (corpus_nonneg inp2 30) (Ne.symm (hall2 30 le_rfl))
    have he_le := annual_expense_mono hrent hmed h0 (le_of_lt hinf) 30
    have hpos : 0 < corpusStep (stateAfter inp2 29).corpus (annual_expense inp2 30) := by
      have h := h30pos2
      rw [(by norm_num : (30 : ℕ) = 29 + 1), stateAfter_succ_corpus inp2 29,
        (by norm_num : (29 : ℕ) + 1 = 30)] at h
      exact h
    rw [(by norm_num : (30 : ℕ) = 29 + 1), stateAfter_succ_corpus inp2 29,
      stateAfter_succ_corpus inp1 29, (by norm_num : (29 : ℕ) + 1 = 30)]
    rcases lt_or_eq_of_le (hpt 29) with hlt | heq
    · exact corpusStep_strict_of_lt hlt he_le hpos
    · rw [← heq]
      apply corpusStep_strict_of_exp (annual_expense_strict_30 hrent h0 hinf) ?_ hpos
      have hub := corpus_le_init inp2 29
      have hlb := annual_expense_30_lb (le_trans (by norm_num) h2.1 :
        (4 : ℚ) ≤ inp2.inflation)
      have hpen : pension = 300000 := rfl
      linarith

/-- Witness for C6 at concrete valid inputs with inflation 4 < 10. -/
theorem c6_inflation_monotone_risk_witness :
    (∀ a1, (project ⟨4, RentStrategy.payingRent, 0⟩).depletion_age = DepAge.ofAge a1 →
      ∃ a2, (project ⟨10, RentStrategy.payingRent, 0⟩).depletion_age = DepAge.ofAge a2 ∧
        a2 ≤ a1) ∧
    ((project ⟨4, RentStrategy.payingRent, 0⟩).depletion_age = DepAge.str95 →
      (project ⟨10, RentStrategy.payingRent, 0⟩).depletion_age = DepAge.str95 →
      terminalCorpus (project ⟨10, RentStrategy.payingRent, 0⟩) <
        terminalCorpus (project ⟨4, RentStrategy.payingRent, 0⟩)) :=
  c6_inflation_monotone_risk ⟨4, RentStrategy.payingRent, 0⟩ ⟨10, RentStrategy.payingRent, 0⟩
    (by decide) (by decide) rfl rfl (by decide)

/-! ### Solvency claims -/

/-- C2: the gold hedge is a step function: `gold_val = 4000000 * 1.10` iff
`market_crash > 15`, and `4000000` otherwise; at crash = 15 the hedge does
not trigger, and the solvency ratio at crash = 16 is strictly greater than
at crash = 15 (for any fixed house-price surge). -/
theorem c2_gold_hedge_step :
    (∀ c s : ℤ,
      ((evaluate ⟨c, s⟩).gold_val = 4000000 * (11 / 10) ↔ 15 < c) ∧
      (¬ 15 < c → (evaluate ⟨c, s⟩).gold_val = 4000000)) ∧
    (∀ s : ℤ, (evaluate ⟨15, s⟩).gold_val = 4000000) ∧
    (∀ s : ℤ, (evaluate ⟨15, s⟩).solvency_ratio < (evaluate ⟨16, s⟩).solvency_ratio) := by
  refine ⟨fun c s => ⟨?_, ?_⟩, fun s => ?_, fun s => ?_⟩
  · by_cases h : 15 < c <;> simp [evaluate, h] <;> norm_num
  · intro h; simp [evaluate, h]
  · norm_num [evaluate]
  · norm_num [evaluate]

/-- Witness for C2 at a concrete input: the hedge is off at crash = 14. -/
theorem c2_gold_hedge_step_witness :
    (evaluate ⟨14, 0⟩).gold_val = 4000000 :=
  (c2_gold_hedge_step.1 14 0).2 (by decide)

/-- C3 counterexample: at `market_crash = 50` the equity value is NOT 0
(the code computes `16000000 * (1 - 50/100) = 8000000`). -/
theorem c3_equity_counterexample :
    (evaluate ⟨50, 0⟩).equity_val ≠ 0 := by
  norm_num [evaluate]

/-- C3 amended: at `market_crash = 50` (any surge) the equity value equals
8,000,000, half of the 16,000,000 equity bucket. -/
theorem c3_equity_at_50 :
    ∀ s : ℤ, (evaluate ⟨50, s⟩).equity_val = 8000000 := by
  intro s; norm_num [evaluate]

/-- C4: at `market_crash = 50` (any surge): equity 8,000,000, gold 4,400,000,
total liquid assets 32,400,000, solvency ratio 32400000/16600000, and the
SAFE badge is off (`is_safe = false`). -/
theorem c4_crash_50_profile :
    ∀ s : ℤ,
      (evaluate ⟨50, s⟩).equity_val = 8000000 ∧
      (evaluate ⟨50, s⟩).gold_val = 4400000 ∧
      (evaluate ⟨50, s⟩).total_liquid_assets = 32400000 ∧
      (evaluate ⟨50, s⟩).solvency_ratio = 32400000 / 16600000 ∧
      (evaluate ⟨50, s⟩).is_safe = false := by
  intro s
  refine ⟨by norm_num [evaluate], by norm_num [evaluate], by norm_num [evaluate],
    by norm_num [evaluate], ?_⟩
  simp only [evaluate]
  rw [decide_eq_false_iff_not]
  norm_num

/-- C5: holding the surge fixed, the solvency ratio is strictly decreasing in
the crash percentage on the region crash ≤ 15 (where the gold hedge is off). -/
theorem c5_ratio_strict_anti_below_15 (a b s : ℤ)
    (ha : ValidCrash a) (hb : ValidCrash b) (hab : a < b) (hb15 : b ≤ 15) :
    (evaluate ⟨b, s⟩).solvency_ratio < (evaluate ⟨a, s⟩).solvency_ratio := by
  have hbn : ¬ (15 : ℤ) < b := not_lt.mpr hb15
  have han : ¬ (15 : ℤ) < a := not_lt.mpr (le_of_lt (lt_of_lt_of_le hab hb15))
  have hcast : (a : ℚ) < (b : ℚ) := by exact_mod_cast hab
  simp only [evaluate, hbn, han, if_false]
  rw [div_lt_div_iff_of_pos_right (by norm_num : (0 : ℚ) < 16600000)]
  linarith

/-- Witness for C5 at concrete crash values 5 < 15. -/
theorem c5_ratio_strict_anti_below_15_witness :
    (evaluate ⟨15, 0⟩).solvency_ratio < (evaluate ⟨5, 0⟩).solvency_ratio :=
  c5_ratio_strict_anti_below_15 5 15 0 (by decide) (by decide) (by decide) (by decide)

end StressTest
